import Mathlib

/-!
Shallow embedding of the TAC (three-address code) core of wgtcc
(`src/tac.h`): operand model (Variable, Constant, Temporary), operator
taxonomy, instruction (TAC node) model and its factory functions, and the
process-wide state they touch (the Temporary id counter and the
Zero/One constant cache).

Conventions of the embedding:
* C++ pointers to operands or instructions become values of the
  corresponding inductive type; a nullable pointer becomes `Option _`.
* `size_t`/`uint64_t` become `Nat`; arithmetic that can wrap carries an
  explicit `% 2 ^ 64`.  `ssize_t` becomes `Int`.
* The function-local `static size_t id` of `Temporary::GenId` and the
  static singletons behind `Constant::Zero` / `Constant::One` become
  explicit state threaded through the functions that read or update it.
* A construction-time rejection (fatal assertion in C++) is modelled by
  returning `none`.
* Bodies that live in `tac.cc` (not part of the visible header) are
  modelled from the specification; each such definition says so in its
  doc comment.
-/

namespace Wgtcc

/-- The word width of `size_t` / `uint64_t` on the target platform. -/
def W : Nat := 2 ^ 64

/-- The C++ `enum class OperandType` from `src/tac.h`: the 4-way machine-level
value classification of every operand. -/
inductive OperandType where
  | SIGNED
  | UNSIGNED
  | FLOAT
  | AGGREGATE
deriving DecidableEq, Repr

/-- Model of `class Variable`: a named, source-level storage location.  The C++
object carries `width_`, `type_`, `name_` (a `const std::string`, hence
default-constructed to `""` when a constructor does not mention it) and
`offset_` (a `ssize_t` that one constructor leaves uninitialized). -/
structure Variable where
  width : Nat
  type : OperandType
  name : String
  offset_ : Int
deriving DecidableEq, Repr

/-- The name-based private constructor
`Variable(size_t width, OperandType type, const std::string& name)`.
Its initializer list mentions `name_` but never `offset_`, so `offset_`
holds indeterminate bits; the parameter `indet` stands for whatever
those bits happen to be. -/
def Variable.mkNamed (width : Nat) (type : OperandType) (name : String)
    (indet : Int) : Variable :=
  { width := width, type := type, name := name, offset_ := indet }

/-- The offset-based private constructor
`Variable(size_t width, OperandType type, const ssize_t offset)`.
`name_` is a `const std::string` member absent from the initializer
list, so it is default-constructed to the empty string. -/
def Variable.mkOffset (width : Nat) (type : OperandType) (offset : Int) :
    Variable :=
  { width := width, type := type, name := "", offset_ := offset }

/-- Method `Variable::Repr`: `return name_;` — unconditionally the name field. -/
def Variable.Repr (v : Variable) : String := v.name

/-- Method `Variable::offset`: `return offset_;`. -/
def Variable.offset (v : Variable) : Int := v.offset_

/-- Model of `class Constant`: an immutable literal whose value is stored as a
64-bit bit pattern `uint64_t val_`. -/
structure Constant where
  width : Nat
  type : OperandType
  val_ : Nat
deriving DecidableEq, Repr

/-- Method `Constant::val`: `return val_;`. -/
def Constant.val (c : Constant) : Nat := c.val_

/-- Method `Constant::Repr`: `return std::to_string(val_);` — the decimal
string of the stored unsigned 64-bit bit pattern. -/
def Constant.Repr (c : Constant) : String := Nat.repr c.val_

/-- Model of `class Temporary`: a synthetic operand standing for one of an
unbounded supply of virtual registers, stamped with `id_`. -/
structure Temporary where
  width : Nat
  type : OperandType
  id : Nat
deriving DecidableEq, Repr

/-- Method `Temporary::Repr`: `return "t" + std::to_string(id_);`. -/
def Temporary.Repr (t : Temporary) : String := "t" ++ Nat.repr t.id

/-- Method `Temporary::GenId`: `static size_t id = 0; return ++id;`.
The function-local static is the explicit argument `id`; the result is
the new value of the static paired with the returned id (they are the
same value).  `size_t` increment wraps at `2 ^ 64`. -/
def Temporary.GenId (id : Nat) : Nat × Nat :=
  ((id + 1) % W, (id + 1) % W)

/-- The private constructor
`Temporary(size_t width, OperandType type) : Operand(width, type), id_(GenId())`.
It draws `id_` from the shared counter, so it takes and returns the
counter state. -/
def Temporary.construct (width : Nat) (type : OperandType) (ctr : Nat) :
    Temporary × Nat :=
  let g := Temporary.GenId ctr
  ({ width := width, type := type, id := g.2 }, g.1)

/-- The closed polymorphic operand family `{Variable, Constant,
Temporary}` behind the abstract base `class Operand`. -/
inductive Operand where
  | var : Variable → Operand
  | cst : Constant → Operand
  | tmp : Temporary → Operand
deriving DecidableEq, Repr

/-- Method `Operand::type`: the dynamic `type_` field of whichever concrete
operand this is. -/
def Operand.type : Operand → OperandType
  | .var v => v.type
  | .cst c => c.type
  | .tmp t => t.type

/-- Method `Operand::width`. -/
def Operand.width : Operand → Nat
  | .var v => v.width
  | .cst c => c.width
  | .tmp t => t.width

/-- Method `Operand::IsInteger`:
`return type_ == OperandType::SIGNED || type_ == OperandType::UNSIGNED;`. -/
def Operand.IsInteger (o : Operand) : Bool :=
  o.type == OperandType.SIGNED || o.type == OperandType.UNSIGNED

/-- Method `Operand::IsUnsigned`. -/
def Operand.IsUnsigned (o : Operand) : Bool :=
  o.type == OperandType.UNSIGNED

/-- Method `Operand::IsSigned`. -/
def Operand.IsSigned (o : Operand) : Bool :=
  o.type == OperandType.SIGNED

/-- Method `Operand::IsFloat`. -/
def Operand.IsFloat (o : Operand) : Bool :=
  o.type == OperandType.FLOAT

/-- Method `Operand::IsAggregate`. -/
def Operand.IsAggregate (o : Operand) : Bool :=
  o.type == OperandType.AGGREGATE

/-- The virtual dispatch of `Operand::Repr` over the three concrete
operand classes. -/
def Operand.ReprOf : Operand → String
  | .var v => v.Repr
  | .cst c => c.Repr
  | .tmp t => t.Repr

/-- Tests whether the pointed-to operand is a `Constant`. -/
def Operand.isConstant : Operand → Bool
  | .cst _ => true
  | _ => false

/-- The C++ `enum class Operator` from `src/tac.h`. -/
inductive Operator where
  | ADD | SUB | MUL | DIV | LESS | GREATER | EQ | NE | LE | GE
  | L_SHIFT | R_SHIFT | OR | AND | XOR
  | ASSIGN | DES_SS_ASSIGN | SRC_SS_ASSIGN | DEREF_ASSIGN
  | PRE_INC | POST_INC | PRE_DEC | POST_DEC | PLUS | MINUS
  | ADDR | DEREF | COMPT | NOT | CAST
  | PARAM | CALL
  | JUMP | IF | IF_FALSE
  | LABEL
deriving DecidableEq, Repr

mutual
/-- Model of `class TAC`: one instruction record with an operator, a nullable
destination operand `des_`, a nullable left operand `lhs_`, and a
union-typed third field (`rhs_` / `n_` / `jump_des_`) modelled as the
tagged `TACThird`. -/
inductive TACI where
  | mk (op : Operator) (des : Option Operand) (lhs : Option Operand)
      (third : TACThird)
/-- The anonymous union `{ Operand* rhs_; ssize_t n_; TAC* jump_des_; }`
inside `class TAC`: exactly one arm is meaningful per instruction. -/
inductive TACThird where
  | rhsArm (rhs : Option Operand)
  | offArm (n : Int)
  | jmpArm (target : TACI)
end

/-- The `op_` field. -/
def TACI.op : TACI → Operator
  | .mk o _ _ _ => o

/-- The `des_` field. -/
def TACI.des : TACI → Option Operand
  | .mk _ d _ _ => d

/-- The `lhs_` field. -/
def TACI.lhs : TACI → Option Operand
  | .mk _ _ l _ => l

/-- The union-typed third field. -/
def TACI.third : TACI → TACThird
  | .mk _ _ _ t => t

/-- Reading the union through its `jump_des_` arm: the jump target when
the instruction was built with one, `none` otherwise. -/
def TACI.jumpDes (t : TACI) : Option TACI :=
  match t.third with
  | .jmpArm tgt => some tgt
  | _ => none

namespace TAC

/-- Modelled from the spec: the body of `TAC::NewBinary` lives in
`tac.cc`, outside the visible header.  Per the factory table,
`NewBinary` populates `des`, `lhs`, `rhs` (all operands) for the binary
family and for the degenerate all-null LABEL case, through the C++
constructor `TAC(op, des, lhs, rhs)`. -/
def NewBinary (op : Operator) (des lhs rhs : Option Operand) : TACI :=
  TACI.mk op des lhs (.rhsArm rhs)

/-- Modelled from the spec: the body of `TAC::NewUnary` lives in
`tac.cc`.  Per the factory table it serves the unary family and
DEREF_ASSIGN, populating `des` and `lhs` with `rhs` unused; the
construction-time invariant of §4.3 rejects a Constant destination for
the assignment-family operator DEREF_ASSIGN (rejection = `none`). -/
def NewUnary (op : Operator) (des operand : Option Operand) :
    Option TACI :=
  if op = Operator.DEREF_ASSIGN ∧ (des.map Operand.isConstant = some true)
  then none
  else some (TACI.mk op des operand (.rhsArm none))

/-- Modelled from the spec: the body of `TAC::NewAssign` lives in
`tac.cc`.  It builds a plain `des = src` copy (operator ASSIGN, `des`
and `lhs := src`), rejecting a Constant destination per §4.3. -/
def NewAssign (des src : Option Operand) : Option TACI :=
  if des.map Operand.isConstant = some true then none
  else some (TACI.mk Operator.ASSIGN des src (.rhsArm none))

/-- Modelled from the spec: the body of `TAC::NewDesSSAssign` lives in
`tac.cc`.  It encodes `des[n] = src` (operator DES_SS_ASSIGN, `des`,
`lhs := src`, third field the integer offset `n`), rejecting a Constant
destination per §4.3. -/
def NewDesSSAssign (des src : Option Operand) (offset : Int) :
    Option TACI :=
  if des.map Operand.isConstant = some true then none
  else some (TACI.mk Operator.DES_SS_ASSIGN des src (.offArm offset))

/-- Modelled from the spec: the body of `TAC::NewSrcSSAssign` lives in
`tac.cc`.  It encodes `des = src[n]` (operator SRC_SS_ASSIGN, `des`,
`lhs := src`, third field the integer offset `n`), rejecting a Constant
destination per §4.3. -/
def NewSrcSSAssign (des src : Option Operand) (offset : Int) :
    Option TACI :=
  if des.map Operand.isConstant = some true then none
  else some (TACI.mk Operator.SRC_SS_ASSIGN des src (.offArm offset))

/-- Factory `TAC::NewDerefAssign` from `src/tac.h`, verbatim:
`return NewUnary(Operator::DEREF_ASSIGN, des, src);`. -/
def NewDerefAssign (des src : Option Operand) : Option TACI :=
  NewUnary Operator.DEREF_ASSIGN des src

/-- Modelled from the spec: the body of `TAC::NewJump` lives in
`tac.cc`.  It builds an unconditional transfer through the C++
constructor `TAC(op, lhs, jump_des)` with `lhs` unused: operator JUMP,
`des_ = nullptr`, `lhs_ = nullptr`, and the union holding a direct
reference to the already-constructed target node. -/
def NewJump (des : TACI) : TACI :=
  TACI.mk Operator.JUMP none none (.jmpArm des)

/-- Modelled from the spec: the body of `TAC::NewIf` lives in `tac.cc`.
Operator IF, `lhs` = the condition operand, union = the jump target;
`des_ = nullptr` per the constructor `TAC(op, lhs, jump_des)`. -/
def NewIf (cond : Operand) (des : TACI) : TACI :=
  TACI.mk Operator.IF none (some cond) (.jmpArm des)

/-- Modelled from the spec: the body of `TAC::NewIfFalse` lives in
`tac.cc`.  Operator IF_FALSE, `lhs` = the condition operand, union =
the jump target; `des_ = nullptr`. -/
def NewIfFalse (cond : Operand) (des : TACI) : TACI :=
  TACI.mk Operator.IF_FALSE none (some cond) (.jmpArm des)

/-- Factory `TAC::NewLabel` from `src/tac.h`, verbatim:
`return NewBinary(Operator::LABEL, nullptr, nullptr, nullptr);`. -/
def NewLabel : TACI :=
  NewBinary Operator.LABEL none none none

end TAC

/-- Modelled from the spec: the source-level type descriptors that reach
`ToTACOperandType` (the `Type` class itself is an external collaborator
queried only for this classification, §4.1): floating-point types,
integral types with a signedness, pointer types, and the
struct/union/array/function types that classify as AGGREGATE. -/
inductive SrcType where
  | floating
  | integral (unsigned : Bool)
  | pointer
  | structOrUnion
  | array
  | function
deriving DecidableEq, Repr

/-- Modelled from the spec: the body of `ToTACOperandType` lives in
`tac.cc`; §4.1 fixes its policy: floating-point → FLOAT; integral →
SIGNED or UNSIGNED per signedness; pointer → UNSIGNED (unsigned-like at
machine level); struct/union/array/function → AGGREGATE. -/
def ToTACOperandType : SrcType → OperandType
  | .floating => .FLOAT
  | .integral u => if u then .UNSIGNED else .SIGNED
  | .pointer => .UNSIGNED
  | .structOrUnion => .AGGREGATE
  | .array => .AGGREGATE
  | .function => .AGGREGATE

/-- One operand-construction step of a translation, as seen by the
process-wide Temporary id counter: constructing a Temporary (with the
width/type the factory derives), or constructing a Variable or a
Constant (which never touch the counter). -/
inductive AllocEvent where
  | mkTemp (width : Nat) (type : OperandType)
  | mkVar (v : Variable)
  | mkConst (c : Constant)
deriving DecidableEq, Repr

/-- Run a sequence of operand constructions against the counter behind
`Temporary::GenId`, collecting the Temporary instances in construction
order.  `Temporary::New` allocates through the private constructor
(`Temporary.construct`); Variable/Constant construction leaves the
counter untouched. -/
def runAlloc : List AllocEvent → Nat → List Temporary × Nat
  | [], ctr => ([], ctr)
  | .mkTemp w ty :: evs, ctr =>
    let r := Temporary.construct w ty ctr
    let rest := runAlloc evs r.2
    (r.1 :: rest.1, rest.2)
  | .mkVar _ :: evs, ctr => runAlloc evs ctr
  | .mkConst _ :: evs, ctr => runAlloc evs ctr

/-- The identifiers of the Temporaries a construction sequence
produces, in construction order, starting from counter state `ctr`. -/
def tempIds (evs : List AllocEvent) (ctr : Nat) : List Nat :=
  (runAlloc evs ctr).1.map Temporary.id

/-- How many of the events construct a Temporary. -/
def tempCount : List AllocEvent → Nat
  | [] => 0
  | .mkTemp _ _ :: evs => tempCount evs + 1
  | .mkVar _ :: evs => tempCount evs
  | .mkConst _ :: evs => tempCount evs

/-- Modelled from the spec: the static storage behind `Constant::Zero`
and `Constant::One` lives in `tac.cc`; §4.2 describes process-wide
shared canonical instances, lazily constructed and reused across all
call sites.  `allocCount` counts how many Constants have been allocated
through this cache, to express "reused rather than re-allocated". -/
structure ConstPool where
  zeroC : Option Constant
  oneC : Option Constant
  allocCount : Nat
deriving DecidableEq, Repr

/-- The cache state before any call: nothing constructed yet. -/
def ConstPool.init : ConstPool :=
  { zeroC := none, oneC := none, allocCount := 0 }

/-- Modelled from the spec: `Constant::Zero` (body in `tac.cc`) returns
the shared canonical zero Constant, constructing it on first use.  The
spec fixes `val() == 0` and that `IsInteger()` holds; the width and the
choice between the two integer classes are not specified, so the model
uses width 8 and SIGNED. -/
def ConstantZero (p : ConstPool) : Constant × ConstPool :=
  match p.zeroC with
  | some c => (c, p)
  | none =>
    let c : Constant := { width := 8, type := .SIGNED, val_ := 0 }
    (c, { p with zeroC := some c, allocCount := p.allocCount + 1 })

/-- Modelled from the spec: `Constant::One` (body in `tac.cc`) returns
the shared canonical one Constant, constructing it on first use; the
spec fixes `val() == 1` and integerness. -/
def ConstantOne (p : ConstPool) : Constant × ConstPool :=
  match p.oneC with
  | some c => (c, p)
  | none =>
    let c : Constant := { width := 8, type := .SIGNED, val_ := 1 }
    (c, { p with oneC := some c, allocCount := p.allocCount + 1 })

/-- A concrete construction sequence interleaving three Temporary
constructions with a Variable and a Constant construction; used to
instantiate the hypotheses of the counter theorems. -/
def exEvents : List AllocEvent :=
  [AllocEvent.mkTemp 4 OperandType.SIGNED,
   AllocEvent.mkVar (Variable.mkNamed 4 OperandType.SIGNED "x" 0),
   AllocEvent.mkTemp 8 OperandType.UNSIGNED,
   AllocEvent.mkConst { width := 4, type := OperandType.SIGNED, val_ := 1 },
   AllocEvent.mkTemp 4 OperandType.FLOAT]

/-- A concrete non-Constant operand (the Variable `x`) used to
instantiate factory theorems. -/
def vX : Variable := Variable.mkNamed 4 OperandType.SIGNED "x" 0

/-- A concrete Constant operand used to instantiate factory theorems. -/
def cEx : Constant := { width := 4, type := OperandType.SIGNED, val_ := 42 }

/-- Key lemma for the id counter: as long as the `size_t` counter never
wraps, the ids handed to the Temporaries of a construction sequence
started at counter state `ctr` are exactly `ctr+1, ctr+2, ...`, one per
Temporary construction, regardless of interleaved Variable/Constant
constructions. -/
theorem tempIds_eq (evs : List AllocEvent) (ctr : Nat)
    (h : ctr + tempCount evs < W) :
    tempIds evs ctr = List.range' (ctr + 1) (tempCount evs) := by
  induction evs generalizing ctr with
  | nil => simp [tempIds, runAlloc, tempCount]
  | cons e evs ih =>
    cases e with
    | mkTemp w ty =>
      have hc : tempCount (AllocEvent.mkTemp w ty :: evs) = tempCount evs + 1 := rfl
      rw [hc] at h
      have hmod : (ctr + 1) % W = ctr + 1 := Nat.mod_eq_of_lt (by omega)
      have ihx := ih (ctr + 1) (by omega)
      rw [hc, List.range'_succ]
      simp only [tempIds, runAlloc, Temporary.construct, Temporary.GenId,
        List.map_cons, hmod] at ihx ⊢
      exact congrArg (List.cons (ctr + 1)) ihx
    | mkVar v =>
      have hc : tempCount (AllocEvent.mkVar v :: evs) = tempCount evs := rfl
      rw [hc] at h
      rw [hc]
      simpa [tempIds, runAlloc] using ih ctr h
    | mkConst c =>
      have hc : tempCount (AllocEvent.mkConst c :: evs) = tempCount evs := rfl
      rw [hc] at h
      rw [hc]
      simpa [tempIds, runAlloc] using ih ctr h

/-- C1: every call to `Temporary::New` draws a fresh id from the shared
counter: over any construction sequence (Temporary constructions freely
interleaved with Variable/Constant constructions, which leave the
counter untouched) of fewer than `2^64` Temporary constructions, the
ids are exactly `1, 2, 3, ...` in construction order — the i-th
Temporary gets id `i+1`, the ids are strictly increasing, no id is ever
repeated, and the first id handed out is 1. -/
theorem temporary_new_ids_fresh (evs : List AllocEvent)
    (h : tempCount evs < W) :
    tempIds evs 0 = List.range' 1 (tempCount evs) ∧
    (∀ i, i < tempCount evs → (tempIds evs 0)[i]? = some (i + 1)) ∧
    List.Pairwise Nat.lt (tempIds evs 0) ∧
    (tempIds evs 0).Nodup ∧
    (tempIds evs 0).head? =
      if tempCount evs = 0 then none else some 1 := by
  have e : tempIds evs 0 = List.range' 1 (tempCount evs) :=
    tempIds_eq evs 0 (by omega)
  refine ⟨e, ?_, ?_, ?_, ?_⟩
  · intro i hi
    rw [e, List.getElem?_range' 1 1 hi]
    congr 1
    omega
  · rw [e]
    exact List.pairwise_lt_range' 1 (tempCount evs)
  · rw [e]
    exact List.nodup_range' 1 (tempCount evs)
  · rw [e]
    exact List.head?_range' (tempCount evs)

/-- Witness instantiating `temporary_new_ids_fresh` on the concrete
sequence `exEvents` (three Temporaries interleaved with a Variable and
a Constant construction). -/
theorem temporary_new_ids_fresh_witness :
    tempCount exEvents < W ∧
    tempIds exEvents 0 = List.range' 1 (tempCount exEvents) ∧
    List.Pairwise Nat.lt (tempIds exEvents 0) ∧
    (tempIds exEvents 0).Nodup ∧
    (tempIds exEvents 0).head? =
      if tempCount exEvents = 0 then none else some 1 :=
  ⟨by decide,
   (temporary_new_ids_fresh exEvents (by decide)).1,
   (temporary_new_ids_fresh exEvents (by decide)).2.2.1,
   (temporary_new_ids_fresh exEvents (by decide)).2.2.2.1,
   (temporary_new_ids_fresh exEvents (by decide)).2.2.2.2⟩

/-- C3: `NewLabel()` returns an instruction with operator LABEL and
null destination, left and right operand fields. -/
theorem newLabel_all_fields_null :
    TAC.NewLabel.op = Operator.LABEL ∧
    TAC.NewLabel.des = none ∧
    TAC.NewLabel.lhs = none ∧
    TAC.NewLabel.third = TACThird.rhsArm none :=
  ⟨rfl, rfl, rfl, rfl⟩

/-- C9: a Variable built through the offset-based constructor has the
default-constructed empty string for `name_`, and `Repr` returns the
name field unconditionally for every Variable, so its `Repr()` is the
empty string. -/
theorem variable_offset_path_repr_empty (w : Nat) (ty : OperandType)
    (off : Int) (v : Variable) :
    (Variable.mkOffset w ty off).Repr = "" ∧ Variable.Repr v = v.name :=
  ⟨rfl, rfl⟩

/-- C2: every assignment-family factory (`NewAssign`, `NewDesSSAssign`,
`NewSrcSSAssign`, `NewDerefAssign`) rejects a Constant destination at
construction time, and consequently no instruction any of them does
produce has a Constant destination. -/
theorem assign_family_rejects_constant_des (des src : Option Operand)
    (n : Int) (c : Constant) :
    TAC.NewAssign (some (Operand.cst c)) src = none ∧
    TAC.NewDesSSAssign (some (Operand.cst c)) src n = none ∧
    TAC.NewSrcSSAssign (some (Operand.cst c)) src n = none ∧
    TAC.NewDerefAssign (some (Operand.cst c)) src = none ∧
    (∀ t, TAC.NewAssign des src = some t →
      t.des.map Operand.isConstant ≠ some true) ∧
    (∀ t, TAC.NewDesSSAssign des src n = some t →
      t.des.map Operand.isConstant ≠ some true) ∧
    (∀ t, TAC.NewSrcSSAssign des src n = some t →
      t.des.map Operand.isConstant ≠ some true) ∧
    (∀ t, TAC.NewDerefAssign des src = some t →
      t.des.map Operand.isConstant ≠ some true) := by
  refine ⟨by simp [TAC.NewAssign, Operand.isConstant],
    by simp [TAC.NewDesSSAssign, Operand.isConstant],
    by simp [TAC.NewSrcSSAssign, Operand.isConstant],
    by simp [TAC.NewDerefAssign, TAC.NewUnary, Operand.isConstant],
    ?_, ?_, ?_, ?_⟩ <;> intro t ht <;>
    by_cases hc : des.map Operand.isConstant = some true <;>
    simp [TAC.NewAssign, TAC.NewDesSSAssign, TAC.NewSrcSSAssign,
      TAC.NewDerefAssign, TAC.NewUnary, hc] at ht <;>
    subst ht <;> simpa [TACI.des] using hc

/-- Witness for `assign_family_rejects_constant_des` at the concrete
operands `cEx` (a Constant) and `vX` (a Variable). -/
theorem assign_family_rejects_constant_des_witness :
    TAC.NewAssign (some (Operand.cst cEx)) (some (Operand.var vX)) = none ∧
    (TACI.mk Operator.ASSIGN (some (Operand.var vX))
      (some (Operand.cst cEx)) (TACThird.rhsArm none)).des.map
      Operand.isConstant ≠ some true :=
  ⟨(assign_family_rejects_constant_des (some (Operand.var vX))
      (some (Operand.cst cEx)) 0 cEx).1,
   (assign_family_rejects_constant_des (some (Operand.var vX))
      (some (Operand.cst cEx)) 0 cEx).2.2.2.2.1
     (TACI.mk Operator.ASSIGN (some (Operand.var vX))
       (some (Operand.cst cEx)) (TACThird.rhsArm none)) rfl⟩

/-- C4: `NewDerefAssign(des, src)` produces exactly what
`NewUnary(DEREF_ASSIGN, des, src)` produces, and any instruction it
does produce has operator DEREF_ASSIGN, destination `des`, left
operand `src`, and the unused `rhs` arm of the union (no
offset/jump-target payload). -/
theorem newDerefAssign_eq_newUnary (des src : Option Operand) :
    TAC.NewDerefAssign des src
      = TAC.NewUnary Operator.DEREF_ASSIGN des src ∧
    (∀ t, TAC.NewDerefAssign des src = some t →
      t.op = Operator.DEREF_ASSIGN ∧ t.des = des ∧ t.lhs = src ∧
      t.third = TACThird.rhsArm none) := by
  refine ⟨rfl, ?_⟩
  intro t ht
  by_cases hc : des.map Operand.isConstant = some true
  · simp [TAC.NewDerefAssign, TAC.NewUnary, hc] at ht
  · simp [TAC.NewDerefAssign, TAC.NewUnary, hc] at ht
    subst ht
    exact ⟨rfl, rfl, rfl, rfl⟩

/-- Witness for `newDerefAssign_eq_newUnary` at the concrete operands
`vX` (destination) and `cEx` (source value). -/
theorem newDerefAssign_eq_newUnary_witness :
    TAC.NewDerefAssign (some (Operand.var vX)) (some (Operand.cst cEx))
      = TAC.NewUnary Operator.DEREF_ASSIGN (some (Operand.var vX))
          (some (Operand.cst cEx)) ∧
    (TACI.mk Operator.DEREF_ASSIGN (some (Operand.var vX))
      (some (Operand.cst cEx)) (TACThird.rhsArm none)).op
      = Operator.DEREF_ASSIGN ∧
    (TACI.mk Operator.DEREF_ASSIGN (some (Operand.var vX))
      (some (Operand.cst cEx)) (TACThird.rhsArm none)).des
      = some (Operand.var vX) ∧
    (TACI.mk Operator.DEREF_ASSIGN (some (Operand.var vX))
      (some (Operand.cst cEx)) (TACThird.rhsArm none)).lhs
      = some (Operand.cst cEx) ∧
    (TACI.mk Operator.DEREF_ASSIGN (some (Operand.var vX))
      (some (Operand.cst cEx)) (TACThird.rhsArm none)).third
      = TACThird.rhsArm none :=
  ⟨(newDerefAssign_eq_newUnary (some (Operand.var vX))
      (some (Operand.cst cEx))).1,
   ((newDerefAssign_eq_newUnary (some (Operand.var vX))
      (some (Operand.cst cEx))).2
     (TACI.mk Operator.DEREF_ASSIGN (some (Operand.var vX))
       (some (Operand.cst cEx)) (TACThird.rhsArm none)) rfl).1,
   ((newDerefAssign_eq_newUnary (some (Operand.var vX))
      (some (Operand.cst cEx))).2
     (TACI.mk Operator.DEREF_ASSIGN (some (Operand.var vX))
       (some (Operand.cst cEx)) (TACThird.rhsArm none)) rfl).2.1,
   ((newDerefAssign_eq_newUnary (some (Operand.var vX))
      (some (Operand.cst cEx))).2
     (TACI.mk Operator.DEREF_ASSIGN (some (Operand.var vX))
       (some (Operand.cst cEx)) (TACThird.rhsArm none)) rfl).2.2.1,
   ((newDerefAssign_eq_newUnary (some (Operand.var vX))
      (some (Operand.cst cEx))).2
     (TACI.mk Operator.DEREF_ASSIGN (some (Operand.var vX))
       (some (Operand.cst cEx)) (TACThird.rhsArm none)) rfl).2.2.2⟩

/-- C5: `Repr()` forms — a name-constructed Variable prints its name
(whatever its indeterminate offset bits are), a Temporary prints `t`
followed by the decimal form of its id (and the i-th Temporary of a
construction sequence prints `t(i+1)`, matching allocation order), and
a Constant prints the decimal string of its raw stored 64-bit value. -/
theorem operand_repr_forms (w : Nat) (ty : OperandType) (name : String)
    (j : Int) (c : Constant) (t : Temporary) (evs : List AllocEvent)
    (h : tempCount evs < W) :
    (Variable.mkNamed w ty name j).Repr = name ∧
    Temporary.Repr t = "t" ++ Nat.repr t.id ∧
    Constant.Repr c = Nat.repr c.val ∧
    (∀ i, i < tempCount evs →
      ((runAlloc evs 0).1.map Temporary.Repr)[i]?
        = some ("t" ++ Nat.repr (i + 1))) := by
  refine ⟨rfl, rfl, rfl, ?_⟩
  intro i hi
  have e : tempIds evs 0 = List.range' 1 (tempCount evs) :=
    tempIds_eq evs 0 (by omega)
  have hmap : (runAlloc evs 0).1.map Temporary.Repr
      = (tempIds evs 0).map (fun m => "t" ++ Nat.repr m) := by
    simp only [tempIds, List.map_map]
    rfl
  rw [hmap, e, List.getElem?_map, List.getElem?_range' 1 1 hi]
  have h1 : 1 + i = i + 1 := by omega
  simp [h1]

/-- Witness instantiating `operand_repr_forms`: the Variable `x`, a
Temporary with id 7, the Constant 42, and the third Temporary of the
concrete sequence `exEvents`. -/
theorem operand_repr_forms_witness :
    tempCount exEvents < W ∧
    (Variable.mkNamed 4 OperandType.SIGNED "x" 0).Repr = "x" ∧
    Temporary.Repr { width := 4, type := OperandType.SIGNED, id := 7 }
      = "t" ++ Nat.repr 7 ∧
    Constant.Repr cEx = Nat.repr cEx.val ∧
    ((runAlloc exEvents 0).1.map Temporary.Repr)[2]?
      = some ("t" ++ Nat.repr (2 + 1)) :=
  ⟨by decide,
   (operand_repr_forms 4 OperandType.SIGNED "x" 0 cEx
     { width := 4, type := OperandType.SIGNED, id := 7 } exEvents
     (by decide)).1,
   (operand_repr_forms 4 OperandType.SIGNED "x" 0 cEx
     { width := 4, type := OperandType.SIGNED, id := 7 } exEvents
     (by decide)).2.1,
   (operand_repr_forms 4 OperandType.SIGNED "x" 0 cEx
     { width := 4, type := OperandType.SIGNED, id := 7 } exEvents
     (by decide)).2.2.1,
   (operand_repr_forms 4 OperandType.SIGNED "x" 0 cEx
     { width := 4, type := OperandType.SIGNED, id := 7 } exEvents
     (by decide)).2.2.2 2 (by decide)⟩

/-- C6: `ToTACOperandType` is total and deterministic on the modelled
source types — it lands in exactly the four-way classification, and
equivalent inputs give equal results. -/
theorem toTACOperandType_total_deterministic (T U : SrcType)
    (h : T = U) :
    (ToTACOperandType T = OperandType.SIGNED ∨
     ToTACOperandType T = OperandType.UNSIGNED ∨
     ToTACOperandType T = OperandType.FLOAT ∨
     ToTACOperandType T = OperandType.AGGREGATE) ∧
    ToTACOperandType T = ToTACOperandType U := by
  subst h
  refine ⟨?_, rfl⟩
  cases T with
  | floating => decide
  | integral u => cases u <;> decide
  | pointer => decide
  | structOrUnion => decide
  | array => decide
  | function => decide

/-- Witness instantiating `toTACOperandType_total_deterministic` at
the signed integral source type. -/
theorem toTACOperandType_total_deterministic_witness :
    SrcType.integral false = SrcType.integral false ∧
    ((ToTACOperandType (SrcType.integral false) = OperandType.SIGNED ∨
      ToTACOperandType (SrcType.integral false) = OperandType.UNSIGNED ∨
      ToTACOperandType (SrcType.integral false) = OperandType.FLOAT ∨
      ToTACOperandType (SrcType.integral false)
        = OperandType.AGGREGATE) ∧
     ToTACOperandType (SrcType.integral false)
       = ToTACOperandType (SrcType.integral false)) :=
  ⟨rfl, toTACOperandType_total_deterministic (SrcType.integral false)
    (SrcType.integral false) rfl⟩

/-- C7: `Constant::Zero` and `Constant::One` are lazily-constructed
shared singletons: a repeated call returns exactly the Constant the
previous call returned and leaves the cache (including its allocation
count) unchanged, the two caches do not disturb each other, and from
the pristine cache `Zero` yields `val() = 0` with `IsInteger()` and
`One` yields `val() = 1` with `IsInteger()`. -/
theorem constant_zero_one_singletons (p : ConstPool) :
    ConstantZero ((ConstantZero p).2)
      = ((ConstantZero p).1, (ConstantZero p).2) ∧
    ConstantOne ((ConstantOne p).2)
      = ((ConstantOne p).1, (ConstantOne p).2) ∧
    ((ConstantOne p).2).zeroC = p.zeroC ∧
    ((ConstantZero p).2).oneC = p.oneC ∧
    ((ConstantZero ((ConstantZero p).2)).2).allocCount
      = ((ConstantZero p).2).allocCount ∧
    (ConstantZero ConstPool.init).1.val = 0 ∧
    (Operand.cst (ConstantZero ConstPool.init).1).IsInteger = true ∧
    (ConstantOne ConstPool.init).1.val = 1 ∧
    (Operand.cst (ConstantOne ConstPool.init).1).IsInteger = true := by
  obtain ⟨z, o, k⟩ := p
  refine ⟨?_, ?_, ?_, ?_, ?_, by decide, by decide, by decide, by decide⟩
  · cases z <;> rfl
  · cases o <;> rfl
  · cases o <;> rfl
  · cases z <;> rfl
  · cases z <;> rfl

/-- C8: the jump-family factories store a direct reference to the
already-constructed target node: the jump target read back from
`NewJump(L)` is exactly `L`, and `NewIf`/`NewIfFalse` additionally
store the condition as the left operand with the same direct target. -/
theorem jump_factories_store_direct_target (L : TACI) (cond : Operand) :
    (TAC.NewJump L).jumpDes = some L ∧
    (TAC.NewJump L).op = Operator.JUMP ∧
    (TAC.NewJump L).des = none ∧
    (TAC.NewJump L).lhs = none ∧
    (TAC.NewIf cond L).jumpDes = some L ∧
    (TAC.NewIf cond L).op = Operator.IF ∧
    (TAC.NewIf cond L).lhs = some cond ∧
    (TAC.NewIfFalse cond L).jumpDes = some L ∧
    (TAC.NewIfFalse cond L).op = Operator.IF_FALSE ∧
    (TAC.NewIfFalse cond L).lhs = some cond :=
  ⟨rfl, rfl, rfl, rfl, rfl, rfl, rfl, rfl, rfl, rfl⟩

/-- C10: the name-based Variable constructor never assigns `offset_`,
so the offset read back is exactly the indeterminate bits the field
happened to hold — two constructions from identical inputs can differ
in `offset()` while agreeing on name, width, type and `Repr()`. -/
theorem variable_named_offset_unspecified (w : Nat) (ty : OperandType)
    (name : String) (j1 j2 : Int) (h : j1 ≠ j2) :
    (Variable.mkNamed w ty name j1).offset = j1 ∧
    (Variable.mkNamed w ty name j1).offset
      ≠ (Variable.mkNamed w ty name j2).offset ∧
    (Variable.mkNamed w ty name j1).Repr
      = (Variable.mkNamed w ty name j2).Repr ∧
    (Variable.mkNamed w ty name j1).width
      = (Variable.mkNamed w ty name j2).width ∧
    (Variable.mkNamed w ty name j1).type
      = (Variable.mkNamed w ty name j2).type :=
  ⟨rfl, h, rfl, rfl, rfl⟩

/-- Witness for `variable_named_offset_unspecified`: the same
name-based construction of `x` over two different residues of the
uninitialized field. -/
theorem variable_named_offset_unspecified_witness :
    ((0 : Int) ≠ 1) ∧
    (Variable.mkNamed 4 OperandType.SIGNED "x" 0).offset = 0 ∧
    (Variable.mkNamed 4 OperandType.SIGNED "x" 0).offset
      ≠ (Variable.mkNamed 4 OperandType.SIGNED "x" 1).offset ∧
    (Variable.mkNamed 4 OperandType.SIGNED "x" 0).Repr
      = (Variable.mkNamed 4 OperandType.SIGNED "x" 1).Repr :=
  ⟨by decide,
   (variable_named_offset_unspecified 4 OperandType.SIGNED "x" 0 1
     (by decide)).1,
   (variable_named_offset_unspecified 4 OperandType.SIGNED "x" 0 1
     (by decide)).2.1,
   (variable_named_offset_unspecified 4 OperandType.SIGNED "x" 0 1
     (by decide)).2.2.1⟩

end Wgtcc
